import Mathlib

set_option autoImplicit false

namespace OALAgent

/-!  Shallow embedding of the OpenAuditLabs agent repository.

Part 1 embeds the Solidity fixture contracts found under
src/tests/fixtures/contracts (IntegerOverflow.sol, Reentrancy.sol,
Delegatecall.sol, AccessControl.sol).  Addresses and uint256 values are
modelled as Nat; uint256 wrap-around is explicit modulo 2 ^ 256; a reverting
call is an `Except.error` carrying the revert string, and the EVM rollback
of a reverted transaction is modelled by wrapper functions returning the
pre-call state.

Part 2 models the job orchestration core (Job Queue, Agent Registry,
Coordinator, Orchestrator).  That subsystem has no implementation in the
repository; it exists only as design prose, so the definitions are modelled
from the spec as permitted for missing code.
-/

/-- uint256 modulus. -/
def UINT_MOD : Nat := 2 ^ 256

namespace IntegerOverflow

/-- Storage of the IntegerOverflow contract: `totalTokens` and `MAX_TOKENS`. -/
structure State where
  totalTokens : Nat
  MAX_TOKENS : Nat
  deriving Repr, DecidableEq

/-- Constructor: totalTokens = 0, MAX_TOKENS initialised to 100. -/
def initialState : State := { totalTokens := 0, MAX_TOKENS := 100 }

/-- mint from src/tests/fixtures/contracts/IntegerOverflow.sol.  The file has
pragma solidity ^0.8.0 and `totalTokens += _amount` outside any unchecked
block, so the addition is checked arithmetic: it reverts with an arithmetic
panic on overflow instead of wrapping.  Then
`require(totalTokens <= MAX_TOKENS, "Exceeds max tokens")`. -/
def mint (s : State) (amount : Nat) : Except String State :=
  if UINT_MOD ≤ s.totalTokens + amount then
    .error "Panic: arithmetic overflow"
  else
    let t := s.totalTokens + amount
    if t ≤ s.MAX_TOKENS then .ok { s with totalTokens := t }
    else .error "Exceeds max tokens"

/-- burn from src/tests/fixtures/contracts/IntegerOverflow.sol:
`require(totalTokens >= _amount)` runs before the checked subtraction, so the
subtraction can never underflow. -/
def burn (s : State) (amount : Nat) : Except String State :=
  if amount ≤ s.totalTokens then .ok { s with totalTokens := s.totalTokens - amount }
  else .error "Not enough tokens"

/-- mint from the unchecked variant of IntegerOverflow stored in
src/models/gnn/README.md: the addition sits in an `unchecked` block and wraps
modulo 2 ^ 256, then
`require(totalTokens <= MAX_TOKENS, "Exceeds max tokens after unchecked addition")`. -/
def mintUnchecked (s : State) (amount : Nat) : Except String State :=
  let t := (s.totalTokens + amount) % UINT_MOD
  if t ≤ s.MAX_TOKENS then .ok { s with totalTokens := t }
  else .error "Exceeds max tokens after unchecked addition"

/-- burn from the unchecked variant in src/models/gnn/README.md: the
subtraction wraps modulo 2 ^ 256 first, and only afterwards
`require(totalTokens >= _amount, "Not enough tokens after unchecked subtraction")`
checks the already-updated `totalTokens`. -/
def burnUnchecked (s : State) (amount : Nat) : Except String State :=
  let t := (s.totalTokens + UINT_MOD - amount % UINT_MOD) % UINT_MOD
  if amount ≤ t then .ok { s with totalTokens := t }
  else .error "Not enough tokens after unchecked subtraction"

end IntegerOverflow

namespace AccessControl

/-- Storage of the AccessControl contract. -/
structure State where
  owner : Nat
  sensitiveData : Nat
  deriving Repr, DecidableEq

/-- Constructor: owner = msg.sender, sensitiveData = 0. -/
def construct (sender : Nat) : State := { owner := sender, sensitiveData := 0 }

/-- setSensitiveData from src/tests/fixtures/contracts/AccessControl.sol:
no onlyOwner modifier, every caller may set `sensitiveData`; never reverts. -/
def setSensitiveData (s : State) (_sender : Nat) (data : Nat) : Except String State :=
  .ok { s with sensitiveData := data }

/-- changeOwner from src/tests/fixtures/contracts/AccessControl.sol: guarded by
the onlyOwner modifier, which is `require(msg.sender == owner, "Not authorized")`
run before the body. -/
def changeOwner (s : State) (sender : Nat) (newOwner : Nat) : Except String State :=
  if sender = s.owner then .ok { s with owner := newOwner }
  else .error "Not authorized"

/-- Transaction-level view of changeOwner: a reverted call rolls the storage
back, so on `Except.error` the pre-call state is kept. -/
def changeOwnerTx (s : State) (sender : Nat) (newOwner : Nat) : State :=
  match changeOwner s sender newOwner with
  | .ok s2 => s2
  | .error _ => s

end AccessControl

namespace Reentrancy

/-- Storage of the Reentrancy contract: the balances mapping. -/
structure State where
  balances : Nat → Nat

/-- Constructor: balances[msg.sender] = 10 ether. -/
def construct (sender : Nat) : State :=
  { balances := fun a => if a = sender then 10 * 10 ^ 18 else 0 }

/-- deposit: balances[msg.sender] += msg.value. -/
def deposit (s : State) (sender value : Nat) : State :=
  { balances := fun a => if a = sender then s.balances sender + value else s.balances a }

/-- Contract state observed by the external call
`msg.sender.call{value: amount}("")` inside withdraw: at that program point
`balances[msg.sender]` has not yet been zeroed, so a reentrant call executes
against the unchanged pre-withdrawal state. -/
def callPointState (s : State) (_sender : Nat) : State := s

/-- withdraw from src/tests/fixtures/contracts/Reentrancy.sol:
reads amount = balances[msg.sender]; `require(amount > 0, "Nothing to withdraw")`;
performs the external value transfer (callOk models whether the low-level call
returned success); `require(success, "Withdrawal failed")`; only then sets
balances[msg.sender] = 0.  Returns the transferred amount and the post state. -/
def withdraw (s : State) (sender : Nat) (callOk : Bool) : Except String (Nat × State) :=
  let amount := s.balances sender
  if amount = 0 then .error "Nothing to withdraw"
  else
    let during := callPointState s sender
    if callOk then
      .ok (amount, { balances := fun a => if a = sender then 0 else during.balances a })
    else .error "Withdrawal failed"

/-- Transaction-level view of withdraw: a reverted call rolls the storage back,
so on `Except.error` the pre-call state is kept. -/
def withdrawTx (s : State) (sender : Nat) (callOk : Bool) : State :=
  match withdraw s sender callOk with
  | .ok (_, s2) => s2
  | .error _ => s

end Reentrancy

namespace Delegatecall

/-- The two storage slots LibraryContract declares: `value` (slot 0) and
`owner` (slot 1).  DelegatecallVulnerable declares `value` and `owner` in the
same two slots, so code of LibraryContract run via delegatecall reads and
writes these fields of the caller. -/
structure Slots where
  value : Nat
  owner : Nat
  deriving Repr, DecidableEq

/-- The LibraryContract functions a calldata payload can select. -/
inductive LibCall
  | setVar (v : Nat)
  | setOwner (o : Nat)
  | doSomething
  deriving Repr, DecidableEq

/-- LibraryContract code from src/tests/fixtures/contracts/Delegatecall.sol,
run against whatever storage context it is executed in. -/
def libExec : LibCall → Slots → Slots
  | .setVar v, st => { st with value := v }
  | .setOwner o, st => { st with owner := o }
  | .doSomething, st => st

/-- Storage of DelegatecallVulnerable: `value` (slot 0), `owner` (slot 1),
`lib` (slot 2). -/
structure VulnState where
  value : Nat
  owner : Nat
  lib : Nat
  deriving Repr, DecidableEq

/-- Constructor of DelegatecallVulnerable. -/
def construct (sender libAddr : Nat) : VulnState :=
  { value := 100, owner := sender, lib := libAddr }

/-- upgrade from src/tests/fixtures/contracts/Delegatecall.sol:
`address(lib).delegatecall(_data)` decodes the calldata to a LibraryContract
function (`none` models a payload matching no function, so success = false and
`require(success, "Delegatecall failed")` reverts) and executes that function
in the storage context of DelegatecallVulnerable itself: slots 0 and 1, that
is this contract's own `value` and `owner`. -/
def upgrade (s : VulnState) (data : Option LibCall) : Except String VulnState :=
  match data with
  | some c =>
    let st := libExec c { value := s.value, owner := s.owner }
    .ok { s with value := st.value, owner := st.owner }
  | none => .error "Delegatecall failed"

end Delegatecall

/-! Part 2: the orchestration core. -/

namespace Orchestration

/-- Modelled from the spec: the analysis capabilities an agent can advertise
({static, dynamic, ml}); the implementation of the registry and routing core
is missing from the repository. -/
inductive Capability
  | static
  | dynamic
  | ml
  deriving Repr, DecidableEq

/-- Modelled from the spec: the named pipelines a Job can request; the
Coordinator implementation that interprets them is missing from the
repository. -/
inductive Pipeline
  | quick
  | standard
  | deep
  deriving Repr, DecidableEq

/-- Modelled from the spec: the capability-mapping table, pipeline name to
required capability set (`standard` to {static, dynamic}; `deep` to
{static, dynamic, ml}; `quick` to {static}); the routing code is missing from
the repository. -/
def Pipeline.requiredCapabilities : Pipeline → List Capability
  | .quick => [.static]
  | .standard => [.static, .dynamic]
  | .deep => [.static, .dynamic, .ml]

/-- Modelled from the spec: Task status values (queued, dispatched, succeeded,
failed, timed_out); the Task lifecycle code is missing from the repository. -/
inductive TaskStatus
  | queued
  | dispatched
  | succeeded
  | failed
  | timed_out
  deriving Repr, DecidableEq

/-- A Task status after which no further transition is applied (the
terminal-state check used for duplicate callbacks). -/
def TaskStatus.isTerminal : TaskStatus → Bool
  | .succeeded | .failed | .timed_out => true
  | _ => false

/-- A Task counts toward Job completion when it is `succeeded` or `failed`. -/
def TaskStatus.isSucceededOrFailed : TaskStatus → Bool
  | .succeeded | .failed => true
  | _ => false

/-- Modelled from the spec: agent health states tracked by the Agent Registry;
the registry implementation is missing from the repository. -/
inductive Health
  | available
  | busy
  | unreachable
  deriving Repr, DecidableEq

/-- Modelled from the spec: an Agent Descriptor (capability set, current load,
health status) held by the Agent Registry; the registry implementation is
missing from the repository. -/
structure AgentDescriptor where
  id : Nat
  capabilities : List Capability
  load : Nat
  health : Health
  deriving Repr, DecidableEq

/-- Registry entries whose agent is `available` and advertises the requested
capability: the only candidates the selection policy may pick from. -/
def matchingAvailable (reg : List AgentDescriptor) (cap : Capability) :
    List AgentDescriptor :=
  reg.filter fun a => a.health == Health.available && a.capabilities.contains cap

/-- Selection preference: strictly smaller load wins, ties broken by smaller
agent id for determinism. -/
def preferred (a b : AgentDescriptor) : Bool :=
  a.load < b.load || (a.load == b.load && a.id < b.id)

/-- Picks the most preferred descriptor from a candidate list. -/
def pickBest : List AgentDescriptor → Option AgentDescriptor
  | [] => none
  | a :: rest =>
    match pickBest rest with
    | none => some a
    | some b => if preferred a b then some a else some b

/-- Modelled from the spec: Agent Registry `select(capability, policy)` —
prefer the least-loaded `available` agent with matching capability, tie-break
by agent id, `none` when no agent advertises the capability or all matching
agents are unreachable or busy; the registry implementation is missing from
the repository. -/
def select (reg : List AgentDescriptor) (cap : Capability) :
    Option AgentDescriptor :=
  pickBest (matchingAvailable reg cap)

/-- Modelled from the spec: a Task derived from a Job for one capability, with
assigned agent, status, attempt count and reported outcome; the Task data
model implementation is missing from the repository. -/
structure Task where
  id : Nat
  jobId : Nat
  capability : Capability
  agentId : Nat
  status : TaskStatus
  attempts : Nat
  result : Option String
  failReason : Option String
  deriving Repr, DecidableEq

/-- Modelled from the spec: Job status values (pending, routed, running,
partial, completed, failed); `partialDone` renders the spec status `partial`.
The Job state machine implementation is missing from the repository. -/
inductive JobStatus
  | pending
  | routed
  | running
  | partialDone
  | completed
  | failed
  deriving Repr, DecidableEq

/-- A Job status with no outgoing transition. -/
def JobStatus.isTerminal : JobStatus → Bool
  | .completed | .failed => true
  | _ => false

/-- Modelled from the spec: the per-Job state the Orchestrator owns: id,
requested pipeline, status, failure reason and derived Tasks; the Orchestrator
implementation is missing from the repository. -/
structure OrchJob where
  id : Nat
  pipeline : Pipeline
  status : JobStatus
  failReason : Option String
  tasks : List Task
  deriving Repr, DecidableEq

/-- A freshly submitted Job: status pending, no Tasks yet. -/
def initJob (id : Nat) (p : Pipeline) : OrchJob :=
  { id := id, pipeline := p, status := .pending, failReason := none, tasks := [] }

/-- Modelled from the spec: the events driving the per-Job state machine —
Coordinator routing and dispatch notifications and the agent result callbacks
task_succeeded(task_id, result) and task_failed(task_id, reason); the
Orchestrator implementation is missing from the repository. -/
inductive OrchEvent
  | tasksRouted (ts : List Task)
  | routingFailed (reason : String)
  | taskDispatched (taskId : Nat)
  | task_succeeded (taskId : Nat) (result : String)
  | task_failed (taskId : Nat) (reason : String)
  deriving Repr, DecidableEq

/-- Job status recomputed from the Task list after a result callback:
completed when every Task is succeeded or failed and at least one succeeded;
failed when every Task is succeeded or failed and none succeeded; partial when
only some Tasks are terminal; otherwise the previous status is kept. -/
def statusFromTasks (prev : JobStatus) (tasks : List Task) : JobStatus :=
  if tasks.all (fun t => t.status.isSucceededOrFailed) then
    if tasks.any (fun t => t.status == TaskStatus.succeeded) then .completed
    else .failed
  else if tasks.any (fun t => t.status.isTerminal) then .partialDone
  else prev

/-- Marks the Task with the given id succeeded and records its result,
provided it is not already terminal. -/
def setTaskSucceeded (tasks : List Task) (tid : Nat) (res : String) : List Task :=
  tasks.map fun t =>
    if t.id == tid && !t.status.isTerminal then
      { t with status := .succeeded, result := some res }
    else t

/-- Marks the Task with the given id failed and records the reason, provided
it is not already terminal. -/
def setTaskFailed (tasks : List Task) (tid : Nat) (reason : String) : List Task :=
  tasks.map fun t =>
    if t.id == tid && !t.status.isTerminal then
      { t with status := .failed, failReason := some reason }
    else t

/-- Marks the queued Task with the given id dispatched. -/
def setTaskDispatched (tasks : List Task) (tid : Nat) : List Task :=
  tasks.map fun t =>
    if t.id == tid && t.status == TaskStatus.queued then
      { t with status := .dispatched, attempts := t.attempts + 1 }
    else t

/-- Looks up a Task of this Job by task id. -/
def findTask (s : OrchJob) (tid : Nat) : Option Task :=
  s.tasks.find? fun t => t.id == tid

/-- Modelled from the spec: the per-Job transition function of the
Orchestrator.  pending to routed when the Coordinator created at least one
Task; pending to failed on a routing failure; routed to running on the first
dispatch notification; result callbacks are applied keyed by task id with a
terminal-state check, so a duplicate callback for an already-terminal Task is
ignored and never re-applied; after applying a callback the Job status is
recomputed from the Task list.  The Orchestrator implementation is missing
from the repository. -/
def applyEvent (s : OrchJob) (e : OrchEvent) : OrchJob :=
  match e with
  | .tasksRouted ts =>
    if s.status == JobStatus.pending && !ts.isEmpty
        && ts.all (fun t => t.status == TaskStatus.queued) then
      { s with status := .routed, tasks := ts }
    else s
  | .routingFailed r =>
    if s.status == JobStatus.pending then
      { s with status := .failed, failReason := some r }
    else s
  | .taskDispatched tid =>
    match findTask s tid with
    | some t =>
      if t.status == TaskStatus.queued then
        { s with tasks := setTaskDispatched s.tasks tid,
                 status := if s.status == JobStatus.routed then .running else s.status }
      else s
    | none => s
  | .task_succeeded tid res =>
    match findTask s tid with
    | some t =>
      if t.status.isTerminal then s
      else
        let ts := setTaskSucceeded s.tasks tid res
        { s with tasks := ts, status := statusFromTasks s.status ts }
    | none => s
  | .task_failed tid r =>
    match findTask s tid with
    | some t =>
      if t.status.isTerminal then s
      else
        let ts := setTaskFailed s.tasks tid r
        { s with tasks := ts, status := statusFromTasks s.status ts }
    | none => s

/-- The Orchestrator states reachable from a freshly submitted Job by the
transition function. -/
inductive Reachable : OrchJob → Prop
  | init (id : Nat) (p : Pipeline) : Reachable (initJob id p)
  | step {s : OrchJob} (e : OrchEvent) : Reachable s → Reachable (applyEvent s e)

/-- Modelled from the spec: the Results Sink aggregation entries — succeeded
Task results tagged by capability, failed Tasks recorded with their failure
reason alongside; the Results Sink implementation is missing from the
repository. -/
inductive ResultEntry
  | success (capability : Capability) (result : String)
  | failure (capability : Capability) (reason : String)
  deriving Repr, DecidableEq

/-- Modelled from the spec: the aggregated result of a Job — concatenation of
all succeeded Task results tagged by capability, with failed Tasks and their
reasons recorded alongside, never silently dropped; the Results Sink
implementation is missing from the repository. -/
def aggregateResults (s : OrchJob) : List ResultEntry :=
  s.tasks.filterMap fun t =>
    match t.status, t.result, t.failReason with
    | .succeeded, some r, _ => some (.success t.capability r)
    | .failed, _, some r => some (.failure t.capability r)
    | _, _, _ => none

/-- Selects one agent per required capability, in order; `none` as soon as
`select` finds no capable agent for some required capability. -/
def selectAgents (reg : List AgentDescriptor) :
    List Capability → Option (List (Capability × AgentDescriptor))
  | [] => some []
  | c :: cs =>
    match select reg c with
    | none => none
    | some a =>
      match selectAgents reg cs with
      | none => none
      | some rest => some ((c, a) :: rest)

/-- Builds the Tasks for the selected agents, assigning deterministic
sequence numbers within the Job starting at the given index. -/
def mkTasksFrom (jobId : Nat) (i : Nat) :
    List (Capability × AgentDescriptor) → List Task
  | [] => []
  | (c, a) :: rest =>
    { id := i, jobId := jobId, capability := c, agentId := a.id,
      status := .queued, attempts := 0, result := none, failReason := none }
      :: mkTasksFrom jobId (i + 1) rest

/-- Tasks derived from a Job, numbered from 0. -/
def mkTasks (jobId : Nat) (picks : List (Capability × AgentDescriptor)) : List Task :=
  mkTasksFrom jobId 0 picks

/-- Modelled from the spec: what the Coordinator decides for one leased Job —
the resulting Job status, failure reason, created Tasks, and whether the Job
lease is acknowledged; the Coordinator implementation is missing from the
repository. -/
structure RouteOutcome where
  jobStatus : JobStatus
  failReason : Option String
  tasks : List Task
  leaseAcked : Bool
  deriving Repr, DecidableEq

/-- Modelled from the spec: the Coordinator routing algorithm — derive the
required capability set from the requested pipeline, call Agent Registry
`select` for each required capability, on success create the Tasks and
acknowledge the Job lease; when `select` finds no capable agent for any
required capability the Job transitions to failed with reason
no_capable_agent and the lease is still acknowledged, not redelivered.  The
Coordinator implementation is missing from the repository. -/
def routeJob (reg : List AgentDescriptor) (jobId : Nat) (p : Pipeline) :
    RouteOutcome :=
  match selectAgents reg p.requiredCapabilities with
  | some picks =>
    { jobStatus := .routed, failReason := none,
      tasks := mkTasks jobId picks, leaseAcked := true }
  | none =>
    { jobStatus := .failed, failReason := some "no_capable_agent",
      tasks := [], leaseAcked := true }

/-- Modelled from the spec: the lease state of one queued Job — visible
(ready), leased until a deadline, or acknowledged; the Job Queue
implementation is missing from the repository. -/
inductive LeaseState
  | ready
  | leased (token : Nat) (deadline : Nat)
  | acked
  deriving Repr, DecidableEq

/-- One Job Queue entry. -/
structure QEntry where
  jobId : Nat
  lease : LeaseState
  deriving Repr, DecidableEq

/-- Modelled from the spec: the Job Queue state, entries plus the current
clock; the queue implementation is missing from the repository. -/
structure QueueState where
  entries : List QEntry
  now : Nat
  deriving Repr, DecidableEq

/-- A queue entry is visible (deliverable) when it is ready. -/
def isVisible (e : QEntry) : Bool := e.lease == LeaseState.ready

/-- Lease expiry for one entry: a leased entry whose visibility deadline has
passed returns to ready. -/
def expireEntry (now : Nat) (e : QEntry) : QEntry :=
  match e.lease with
  | .leased _ d => if d ≤ now then { e with lease := .ready } else e
  | _ => e

/-- Modelled from the spec: lease expiry — a leased-but-not-acknowledged entry
whose visibility deadline has passed returns to ready and becomes deliverable
again; the queue implementation is missing from the repository. -/
def expireLeases (q : QueueState) : QueueState :=
  { q with entries := q.entries.map (expireEntry q.now) }

/-- A Job status counts as a terminal Job record for deduplication purposes. -/
def jobTerminal (j : OrchJob) : Bool := j.status.isTerminal

/-- Applies a Coordinator routing outcome to a Job record. -/
def applyRoute (j : OrchJob) (out : RouteOutcome) : OrchJob :=
  { j with status := out.jobStatus, failReason := out.failReason, tasks := out.tasks }

/-- Modelled from the spec: idempotent consumption of a (possibly redelivered)
Job — the consumer deduplicates by job id, so a delivery whose job id already
has a Job record is ignored; otherwise the Job is routed and recorded.  The
consumer implementation is missing from the repository. -/
def processDelivery (table : List OrchJob) (reg : List AgentDescriptor)
    (jobId : Nat) (p : Pipeline) : List OrchJob :=
  if table.any (fun j => j.id == jobId) then table
  else applyRoute (initJob jobId p) (routeJob reg jobId p) :: table

/-- A concrete queued static-analysis Task used to exercise the state
machine. -/
def sampleTask : Task :=
  { id := 0, jobId := 7, capability := .static, agentId := 3,
    status := .queued, attempts := 0, result := none, failReason := none }

/-- A completed Job obtained by running the state machine from a fresh Job
through routing, dispatch and a successful result callback. -/
def sampleCompletedJob : OrchJob :=
  applyEvent (applyEvent (applyEvent (initJob 7 .quick)
    (.tasksRouted [sampleTask])) (.taskDispatched 0)) (.task_succeeded 0 "ok")

/-- A concrete already-succeeded Task. -/
def sampleTerminalTask : Task :=
  { id := 0, jobId := 9, capability := .static, agentId := 3,
    status := .succeeded, attempts := 1, result := some "r1", failReason := none }

/-- A concrete Job holding one already-terminal Task. -/
def sampleJobWithTerminal : OrchJob :=
  { id := 9, pipeline := .quick, status := .completed, failReason := none,
    tasks := [sampleTerminalTask] }

/-- A concrete available static-analysis agent. -/
def sampleAgent : AgentDescriptor :=
  { id := 5, capabilities := [.static], load := 0, health := .available }

/-- A concrete registry holding one available static-analysis agent. -/
def sampleRegistry : List AgentDescriptor := [sampleAgent]

/-- A concrete queue entry whose lease deadline has already passed. -/
def sampleExpiredEntry : QEntry := { jobId := 4, lease := .leased 1 10 }

/-- A concrete queue holding the expired entry at clock 10. -/
def sampleQueue : QueueState := { entries := [sampleExpiredEntry], now := 10 }

end Orchestration

/-! Theorems. -/

namespace Orchestration

theorem pickBest_mem {l : List AgentDescriptor} {a : AgentDescriptor}
    (h : pickBest l = some a) : a ∈ l := by
  induction l with
  | nil => simp [pickBest] at h
  | cons x rest ih =>
    simp only [pickBest] at h
    cases hr : pickBest rest with
    | none =>
      simp only [hr] at h
      cases h
      exact List.mem_cons_self _ _
    | some b =>
      simp only [hr] at h
      by_cases hp : preferred x b = true
      · rw [if_pos hp] at h
        cases h
        exact List.mem_cons_self _ _
      · rw [if_neg hp] at h
        cases h
        exact List.mem_cons_of_mem x (ih hr)

/-- Claim C4: Agent Registry `select` never returns an agent whose health is
`unreachable` or `busy`: any selected agent is `available`. -/
theorem select_returns_only_available (reg : List AgentDescriptor)
    (cap : Capability) (a : AgentDescriptor) (h : select reg cap = some a) :
    a.health = Health.available ∧
    a.health ≠ Health.unreachable ∧ a.health ≠ Health.busy := by
  have hmem : a ∈ matchingAvailable reg cap := pickBest_mem h
  have hp : (a.health == Health.available && a.capabilities.contains cap) = true :=
    (List.mem_filter.mp hmem).2
  have h1 : a.health = Health.available :=
    eq_of_beq ((Bool.and_eq_true _ _).mp hp).1
  refine ⟨h1, ?_, ?_⟩ <;> rw [h1] <;> intro hcontra <;> cases hcontra

/-- Witness for C4 at a concrete one-agent registry. -/
theorem select_returns_only_available_witness :
    sampleAgent.health = Health.available ∧
    sampleAgent.health ≠ Health.unreachable ∧
    sampleAgent.health ≠ Health.busy :=
  select_returns_only_available sampleRegistry Capability.static sampleAgent rfl

/-- Claim C2: a second `task_succeeded` or `task_failed` callback for an
already-terminal Task leaves the Orchestrator state and the aggregated
results unchanged. -/
theorem duplicate_terminal_callback_idempotent (s : OrchJob) (tid : Nat)
    (t : Task) (res reason : String) (hf : findTask s tid = some t)
    (ht : t.status.isTerminal = true) :
    applyEvent s (.task_succeeded tid res) = s ∧
    applyEvent s (.task_failed tid reason) = s ∧
    aggregateResults (applyEvent s (.task_succeeded tid res)) = aggregateResults s ∧
    aggregateResults (applyEvent s (.task_failed tid reason)) = aggregateResults s := by
  have h1 : applyEvent s (.task_succeeded tid res) = s := by
    simp [applyEvent, hf, ht]
  have h2 : applyEvent s (.task_failed tid reason) = s := by
    simp [applyEvent, hf, ht]
  exact ⟨h1, h2, by rw [h1], by rw [h2]⟩

/-- Witness for C2 at a concrete Job holding one succeeded Task. -/
theorem duplicate_terminal_callback_idempotent_witness :
    applyEvent sampleJobWithTerminal (.task_succeeded 0 "r2") = sampleJobWithTerminal ∧
    applyEvent sampleJobWithTerminal (.task_failed 0 "boom") = sampleJobWithTerminal ∧
    aggregateResults (applyEvent sampleJobWithTerminal (.task_succeeded 0 "r2"))
      = aggregateResults sampleJobWithTerminal ∧
    aggregateResults (applyEvent sampleJobWithTerminal (.task_failed 0 "boom"))
      = aggregateResults sampleJobWithTerminal :=
  duplicate_terminal_callback_idempotent sampleJobWithTerminal 0 sampleTerminalTask
    "r2" "boom" rfl rfl

theorem selectAgents_isNone {reg : List AgentDescriptor} {caps : List Capability}
    {c : Capability} (hmem : c ∈ caps) (hsel : select reg c = none) :
    selectAgents reg caps = none := by
  induction caps with
  | nil => cases hmem
  | cons d ds ih =>
    rcases List.mem_cons.mp hmem with h | h
    · subst h; simp [selectAgents, hsel]
    · cases hd : select reg d with
      | none => simp [selectAgents, hd]
      | some b => simp [selectAgents, hd, ih h]

theorem failed_empty_job_absorbing (s : OrchJob) (e : OrchEvent)
    (hs : s.status = JobStatus.failed) (ht : s.tasks = []) :
    applyEvent s e = s := by
  cases e with
  | tasksRouted ts => simp [applyEvent, hs]
  | routingFailed r => simp [applyEvent, hs]
  | taskDispatched tid => simp [applyEvent, findTask, ht]
  | task_succeeded tid res => simp [applyEvent, findTask, ht]
  | task_failed tid r => simp [applyEvent, findTask, ht]

/-- Claim C3: when `select` finds no capable agent for some required
capability of the pipeline, the Coordinator turns the Job failed with reason
no_capable_agent and still acknowledges the lease (no redelivery); a failed
Job with no Tasks is absorbing under every further Orchestrator event. -/
theorem no_capable_agent_fails_job (reg : List AgentDescriptor) (jobId : Nat)
    (p : Pipeline) (c : Capability) (hmem : c ∈ p.requiredCapabilities)
    (hsel : select reg c = none) :
    (routeJob reg jobId p).jobStatus = JobStatus.failed ∧
    (routeJob reg jobId p).failReason = some "no_capable_agent" ∧
    (routeJob reg jobId p).leaseAcked = true ∧
    ∀ (s : OrchJob) (e : OrchEvent), s.status = JobStatus.failed → s.tasks = [] →
      applyEvent s e = s := by
  have hnone := selectAgents_isNone hmem hsel
  refine ⟨?_, ?_, ?_, failed_empty_job_absorbing⟩ <;> simp [routeJob, hnone]

theorem succeededOrFailed_terminal {st : TaskStatus}
    (h : st.isSucceededOrFailed = true) : st.isTerminal = true := by
  cases st <;> simp [TaskStatus.isSucceededOrFailed, TaskStatus.isTerminal] at h ⊢

theorem statusFromTasks_completed {prev : JobStatus} {ts : List Task}
    (h : statusFromTasks prev ts = JobStatus.completed) :
    prev = JobStatus.completed ∨
      (ts.all (fun t => t.status.isSucceededOrFailed) = true ∧
       ts.any (fun t => t.status == TaskStatus.succeeded) = true) := by
  unfold statusFromTasks at h
  by_cases h1 : ts.all (fun t => t.status.isSucceededOrFailed) = true
  · rw [if_pos h1] at h
    by_cases h2 : ts.any (fun t => t.status == TaskStatus.succeeded) = true
    · exact Or.inr ⟨h1, h2⟩
    · rw [if_neg h2] at h
      cases h
  · rw [if_neg h1] at h
    by_cases h3 : ts.any (fun t => t.status.isTerminal) = true
    · rw [if_pos h3] at h
      cases h
    · rw [if_neg h3] at h
      exact Or.inl h

/-- Claim C1: in every Orchestrator state reachable by the transitions, the
Job status is `completed` only if every derived Task is terminal (`succeeded`
or `failed`) and at least one Task is `succeeded`. -/
theorem job_completed_only_when_tasks_terminal {s : OrchJob}
    (hr : Reachable s) (hc : s.status = JobStatus.completed) :
    s.tasks.all (fun t => t.status.isSucceededOrFailed) = true ∧
    s.tasks.any (fun t => t.status == TaskStatus.succeeded) = true := by
  revert hc
  induction hr with
  | init id p => intro hc; simp [initJob] at hc
  | @step s e hprev ih =>
    intro hc
    cases e with
    | tasksRouted ts =>
      by_cases hg : (s.status == JobStatus.pending && !ts.isEmpty
          && ts.all (fun t => t.status == TaskStatus.queued)) = true
      · rw [applyEvent, if_pos hg] at hc
        cases hc
      · rw [applyEvent, if_neg hg] at hc ⊢
        exact ih hc
    | routingFailed r =>
      by_cases hg : (s.status == JobStatus.pending) = true
      · rw [applyEvent, if_pos hg] at hc
        cases hc
      · rw [applyEvent, if_neg hg] at hc ⊢
        exact ih hc
    | taskDispatched tid =>
      cases hf : findTask s tid with
      | none =>
        simp only [applyEvent, hf] at hc ⊢
        exact ih hc
      | some t =>
        by_cases hq : (t.status == TaskStatus.queued) = true
        · simp only [applyEvent, hf, if_pos hq] at hc ⊢
          by_cases hr2 : (s.status == JobStatus.routed) = true
          · rw [if_pos hr2] at hc
            cases hc
          · rw [if_neg hr2] at hc
            have ⟨hall, _⟩ := ih hc
            have hmem : t ∈ s.tasks := List.mem_of_find?_eq_some hf
            have h2 := List.all_eq_true.mp hall t hmem
            rw [eq_of_beq hq] at h2
            cases h2
        · simp only [applyEvent, hf, if_neg hq] at hc ⊢
          exact ih hc
    | task_succeeded tid res =>
      cases hf : findTask s tid with
      | none =>
        simp only [applyEvent, hf] at hc ⊢
        exact ih hc
      | some t =>
        by_cases hterm : t.status.isTerminal = true
        · simp only [applyEvent, hf, if_pos hterm] at hc ⊢
          exact ih hc
        · simp only [applyEvent, hf, if_neg hterm] at hc ⊢
          rcases statusFromTasks_completed hc with hp2 | hok
          · have ⟨hall, _⟩ := ih hp2
            have hmem : t ∈ s.tasks := List.mem_of_find?_eq_some hf
            have h2 := succeededOrFailed_terminal (List.all_eq_true.mp hall t hmem)
            exact absurd h2 hterm
          · exact hok
    | task_failed tid r =>
      cases hf : findTask s tid with
      | none =>
        simp only [applyEvent, hf] at hc ⊢
        exact ih hc
      | some t =>
        by_cases hterm : t.status.isTerminal = true
        · simp only [applyEvent, hf, if_pos hterm] at hc ⊢
          exact ih hc
        · simp only [applyEvent, hf, if_neg hterm] at hc ⊢
          rcases statusFromTasks_completed hc with hp2 | hok
          · have ⟨hall, _⟩ := ih hp2
            have hmem : t ∈ s.tasks := List.mem_of_find?_eq_some hf
            have h2 := succeededOrFailed_terminal (List.all_eq_true.mp hall t hmem)
            exact absurd h2 hterm
          · exact hok

/-- Witness for C1 at a concrete reachable completed Job. -/
theorem job_completed_only_when_tasks_terminal_witness :
    sampleCompletedJob.tasks.all (fun t => t.status.isSucceededOrFailed) = true ∧
    sampleCompletedJob.tasks.any (fun t => t.status == TaskStatus.succeeded) = true :=
  job_completed_only_when_tasks_terminal
    (Reachable.step _ (Reachable.step _ (Reachable.step _
      (Reachable.init 7 Pipeline.quick))))
    (by decide)

/-- Witness for C3 at the empty registry and the quick pipeline. -/
theorem no_capable_agent_fails_job_witness :
    (routeJob [] 1 Pipeline.quick).jobStatus = JobStatus.failed ∧
    (routeJob [] 1 Pipeline.quick).failReason = some "no_capable_agent" ∧
    (routeJob [] 1 Pipeline.quick).leaseAcked = true ∧
    ∀ (s : OrchJob) (e : OrchEvent), s.status = JobStatus.failed → s.tasks = [] →
      applyEvent s e = s :=
  no_capable_agent_fails_job [] 1 Pipeline.quick Capability.static (by decide) rfl

/-- Claim C6: a Job with pipeline quick needs exactly capability set {static};
when a static-capable agent is selectable the Coordinator creates exactly one
Task, and after routing, dispatch and `task_succeeded` for that Task the Job
status is `completed`. -/
theorem quick_pipeline_scenario (reg : List AgentDescriptor)
    (a : AgentDescriptor) (jobId : Nat) (res : String)
    (h : select reg Capability.static = some a) :
    Pipeline.quick.requiredCapabilities = [Capability.static] ∧
    (routeJob reg jobId Pipeline.quick).tasks.length = 1 ∧
    (applyEvent (applyEvent (applyEvent (initJob jobId Pipeline.quick)
        (.tasksRouted (routeJob reg jobId Pipeline.quick).tasks))
        (.taskDispatched 0))
        (.task_succeeded 0 res)).status = JobStatus.completed := by
  have hsa : selectAgents reg Pipeline.quick.requiredCapabilities
      = some [(Capability.static, a)] := by
    simp [Pipeline.requiredCapabilities, selectAgents, h]
  have hout : routeJob reg jobId Pipeline.quick =
      { jobStatus := .routed, failReason := none,
        tasks := [{ id := 0, jobId := jobId, capability := .static,
                    agentId := a.id, status := .queued, attempts := 0,
                    result := none, failReason := none }],
        leaseAcked := true } := by
    simp [routeJob, hsa, mkTasks, mkTasksFrom]
  refine ⟨rfl, ?_, ?_⟩
  · rw [hout]
    rfl
  · rw [hout]
    simp [applyEvent, initJob, findTask, setTaskDispatched, setTaskSucceeded,
      statusFromTasks, TaskStatus.isTerminal, TaskStatus.isSucceededOrFailed]

/-- Witness for C6 at a concrete one-agent registry. -/
theorem quick_pipeline_scenario_witness :
    Pipeline.quick.requiredCapabilities = [Capability.static] ∧
    (routeJob sampleRegistry 1 Pipeline.quick).tasks.length = 1 ∧
    (applyEvent (applyEvent (applyEvent (initJob 1 Pipeline.quick)
        (.tasksRouted (routeJob sampleRegistry 1 Pipeline.quick).tasks))
        (.taskDispatched 0))
        (.task_succeeded 0 "report")).status = JobStatus.completed :=
  quick_pipeline_scenario sampleRegistry sampleAgent 1 "report" rfl

theorem processDelivery_no_duplicate_terminal (table : List OrchJob)
    (reg : List AgentDescriptor) (jid : Nat) (p : Pipeline)
    (hcount : table.countP (fun j => j.id == jid) ≤ 1) :
    (processDelivery table reg jid p).countP
        (fun j => j.id == jid && jobTerminal j) ≤ 1 := by
  have hmono : ∀ l : List OrchJob,
      l.countP (fun j => j.id == jid && jobTerminal j)
        ≤ l.countP (fun j => j.id == jid) := by
    intro l
    apply List.countP_mono_left
    intro j _ hj
    exact ((Bool.and_eq_true _ _).mp hj).1
  by_cases hdup : table.any (fun j => j.id == jid) = true
  · rw [processDelivery, if_pos hdup]
    exact le_trans (hmono table) hcount
  · rw [processDelivery, if_neg hdup]
    have hz : table.countP (fun j => j.id == jid) = 0 := by
      rw [List.countP_eq_zero]
      intro j hj hjj
      exact hdup (List.any_eq_true.mpr ⟨j, hj, hjj⟩)
    rw [List.countP_cons]
    calc table.countP (fun j => j.id == jid && jobTerminal j)
          + (if (fun j => j.id == jid && jobTerminal j)
              (applyRoute (initJob jid p) (routeJob reg jid p)) = true then 1 else 0)
        ≤ 0 + 1 := by
          apply Nat.add_le_add
          · exact le_trans (hmono table) (le_of_eq hz)
          · split <;> omega
      _ = 1 := by omega

/-- Claim C7: a leased-but-never-acknowledged queue entry whose visibility
deadline has elapsed becomes visible (deliverable) again after lease expiry,
and consuming a (re)delivered job id deduplicates by job id, so processing a
redelivery never yields a second terminal Job record for the same id. -/
theorem lease_timeout_redelivery_dedup (q : QueueState) (e : QEntry)
    (tok d : Nat) (table : List OrchJob) (reg : List AgentDescriptor)
    (jid : Nat) (p : Pipeline)
    (he : e ∈ q.entries) (hl : e.lease = LeaseState.leased tok d)
    (hd : d ≤ q.now)
    (hcount : table.countP (fun j => j.id == jid) ≤ 1) :
    ({ e with lease := LeaseState.ready } ∈ (expireLeases q).entries ∧
     isVisible { e with lease := LeaseState.ready } = true) ∧
    (processDelivery table reg jid p).countP
        (fun j => j.id == jid && jobTerminal j) ≤ 1 := by
  refine ⟨⟨?_, rfl⟩, processDelivery_no_duplicate_terminal table reg jid p hcount⟩
  have h1 : expireEntry q.now e = { e with lease := LeaseState.ready } := by
    rw [expireEntry, hl]
    simp [hd]
  rw [← h1, expireLeases]
  exact List.mem_map_of_mem (expireEntry q.now) he

/-- Witness for C7 at a concrete expired lease and an empty Job table. -/
theorem lease_timeout_redelivery_dedup_witness :
    ({ sampleExpiredEntry with lease := LeaseState.ready }
        ∈ (expireLeases sampleQueue).entries ∧
     isVisible { sampleExpiredEntry with lease := LeaseState.ready } = true) ∧
    (processDelivery [] sampleRegistry 4 Pipeline.quick).countP
        (fun j => j.id == 4 && jobTerminal j) ≤ 1 :=
  lease_timeout_redelivery_dedup sampleQueue sampleExpiredEntry 1 10 []
    sampleRegistry 4 Pipeline.quick (by decide) rfl (by decide) (by decide)

end Orchestration

/-- Claim C5 (code-bug evidence): the fixture
src/tests/fixtures/contracts/IntegerOverflow.sol carries pragma ^0.8.0 and no
unchecked block, so its mint reverts with an arithmetic panic instead of
wrapping, and its burn cannot underflow because the require runs first; the
unchecked variant kept in src/models/gnn/README.md behaves as the claim and
the fixture comments describe: mint wraps 50 + (2 ^ 256 - 30) to 20 and the
require passes, and burn wraps 0 - 1 to 2 ^ 256 - 1 and its require passes. -/
theorem integer_overflow_checked_vs_unchecked :
    IntegerOverflow.mint { totalTokens := 50, MAX_TOKENS := 100 } (UINT_MOD - 30)
      = .error "Panic: arithmetic overflow" ∧
    IntegerOverflow.mintUnchecked { totalTokens := 50, MAX_TOKENS := 100 } (UINT_MOD - 30)
      = .ok { totalTokens := 20, MAX_TOKENS := 100 } ∧
    IntegerOverflow.burn { totalTokens := 0, MAX_TOKENS := 100 } 1
      = .error "Not enough tokens" ∧
    IntegerOverflow.burnUnchecked { totalTokens := 0, MAX_TOKENS := 100 } 1
      = .ok { totalTokens := UINT_MOD - 1, MAX_TOKENS := 100 } := by
  refine ⟨?_, ?_, ?_, ?_⟩ <;> rfl

/-- Claim C8: withdraw in the Reentrancy fixture reverts exactly when the
recorded balance of the caller is zero and leaves balances unchanged on
revert; on a successful call it transfers the full recorded balance and
zeroes it only after the external call, so a reentrant call made at the
external-call point still observes the pre-withdrawal balance and can
withdraw the same amount again. -/
theorem reentrancy_withdraw_correct (s : Reentrancy.State) (sender : Nat) :
    (Reentrancy.withdraw s sender true = .error "Nothing to withdraw"
      ↔ s.balances sender = 0) ∧
    (s.balances sender = 0 →
      ∀ callOk : Bool, Reentrancy.withdrawTx s sender callOk = s) ∧
    (0 < s.balances sender →
      ∃ s2, Reentrancy.withdraw s sender true = .ok (s.balances sender, s2) ∧
        s2.balances sender = 0 ∧
        (∀ a, a ≠ sender → s2.balances a = s.balances a) ∧
        (Reentrancy.callPointState s sender).balances sender = s.balances sender ∧
        ∃ s3, Reentrancy.withdraw (Reentrancy.callPointState s sender) sender true
          = .ok (s.balances sender, s3)) := by
  by_cases hb : s.balances sender = 0
  · refine ⟨?_, ?_, ?_⟩
    · simp [Reentrancy.withdraw, hb]
    · intro _ callOk
      simp [Reentrancy.withdrawTx, Reentrancy.withdraw, hb]
    · intro hpos
      omega
  · refine ⟨?_, ?_, ?_⟩
    · simp [Reentrancy.withdraw, hb]
    · intro h0
      exact absurd h0 hb
    · intro _
      refine ⟨{ balances := fun a => if a = sender then 0 else s.balances a },
        ?_, ?_, ?_, rfl, ?_⟩
      · simp [Reentrancy.withdraw, Reentrancy.callPointState, hb]
      · simp
      · intro a ha
        simp [ha]
      · refine ⟨{ balances := fun a => if a = sender then 0 else s.balances a }, ?_⟩
        simp [Reentrancy.withdraw, Reentrancy.callPointState, hb]

/-- Witness for C8 at the freshly constructed contract and its deployer. -/
theorem reentrancy_withdraw_correct_witness :
    (Reentrancy.withdraw (Reentrancy.construct 1) 1 true
        = .error "Nothing to withdraw"
      ↔ (Reentrancy.construct 1).balances 1 = 0) ∧
    ((Reentrancy.construct 1).balances 1 = 0 →
      ∀ callOk : Bool,
        Reentrancy.withdrawTx (Reentrancy.construct 1) 1 callOk
          = Reentrancy.construct 1) ∧
    (0 < (Reentrancy.construct 1).balances 1 →
      ∃ s2, Reentrancy.withdraw (Reentrancy.construct 1) 1 true
          = .ok ((Reentrancy.construct 1).balances 1, s2) ∧
        s2.balances 1 = 0 ∧
        (∀ a, a ≠ 1 → s2.balances a = (Reentrancy.construct 1).balances a) ∧
        (Reentrancy.callPointState (Reentrancy.construct 1) 1).balances 1
          = (Reentrancy.construct 1).balances 1 ∧
        ∃ s3, Reentrancy.withdraw
            (Reentrancy.callPointState (Reentrancy.construct 1) 1) 1 true
          = .ok ((Reentrancy.construct 1).balances 1, s3)) :=
  reentrancy_withdraw_correct (Reentrancy.construct 1) 1

/-- Claim C9: upgrade in the Delegatecall fixture does not preserve the state
of DelegatecallVulnerable: the calldata selecting setOwner(attacker) makes a
successful upgrade rewrite the owner slot of the calling contract itself. -/
theorem delegatecall_upgrade_changes_owner (s : Delegatecall.VulnState)
    (attacker : Nat) (h : attacker ≠ s.owner) :
    ∃ data s2, Delegatecall.upgrade s data = .ok s2 ∧
      s2.owner = attacker ∧ s2.owner ≠ s.owner := by
  exact ⟨some (.setOwner attacker), { s with owner := attacker }, rfl, rfl, h⟩

/-- Witness for C9 at a freshly constructed contract and attacker 99. -/
theorem delegatecall_upgrade_changes_owner_witness :
    ∃ data s2, Delegatecall.upgrade (Delegatecall.construct 1 2) data = .ok s2 ∧
      s2.owner = 99 ∧ s2.owner ≠ (Delegatecall.construct 1 2).owner :=
  delegatecall_upgrade_changes_owner (Delegatecall.construct 1 2) 99 (by decide)

/-- Claim C10: changeOwner in the AccessControl fixture updates the owner
exactly when the caller is the current owner, and reverts with Not authorized
leaving the state unchanged for every other caller; setSensitiveData never
reverts and sets sensitiveData for every caller, owner or not. -/
theorem access_control_correct (s : AccessControl.State)
    (sender newOwner data : Nat) :
    (AccessControl.changeOwner s sender newOwner
        = .ok { s with owner := newOwner } ↔ sender = s.owner) ∧
    (sender ≠ s.owner →
      AccessControl.changeOwner s sender newOwner = .error "Not authorized" ∧
      AccessControl.changeOwnerTx s sender newOwner = s) ∧
    AccessControl.setSensitiveData s sender data
      = .ok { s with sensitiveData := data } := by
  by_cases h : sender = s.owner
  · refine ⟨?_, ?_, rfl⟩
    · simp [AccessControl.changeOwner, h]
    · intro hne
      exact absurd h hne
  · refine ⟨?_, ?_, rfl⟩
    · simp [AccessControl.changeOwner, h]
    · intro _
      exact ⟨by simp [AccessControl.changeOwner, h],
        by simp [AccessControl.changeOwnerTx, AccessControl.changeOwner, h]⟩

/-- Witness for C10 at a freshly constructed contract, a non-owner caller and
concrete arguments. -/
theorem access_control_correct_witness :
    (AccessControl.changeOwner (AccessControl.construct 1) 2 3
        = .ok { AccessControl.construct 1 with owner := 3 }
      ↔ 2 = (AccessControl.construct 1).owner) ∧
    (2 ≠ (AccessControl.construct 1).owner →
      AccessControl.changeOwner (AccessControl.construct 1) 2 3
        = .error "Not authorized" ∧
      AccessControl.changeOwnerTx (AccessControl.construct 1) 2 3
        = AccessControl.construct 1) ∧
    AccessControl.setSensitiveData (AccessControl.construct 1) 2 4
      = .ok { AccessControl.construct 1 with sensitiveData := 4 } :=
  access_control_correct (AccessControl.construct 1) 2 3 4

end OALAgent
